import Mathlib

/-!
A shallow embedding of the call-orchestration core of `src/script.js`
(Ezcord): the device-state synchronizer (`setMicrophoneState`,
`setSpeakerState`, `initializeMedia`), the peer-connection table
(`createPeerConnection` and the socket handlers for `existing-voice-users`,
`user-joined-voice`, `offer`, `answer`, `ice-candidate`,
`oniceconnectionstatechange`), the voice-channel lifecycle
(`joinVoiceChannel`, `leaveVoiceChannel`), direct-call initiation and
acceptance (`initiateCall`, `acceptCall`), and the visibility-guarded 30s
auto-reject timer of `showIncomingCall`.

The asynchronous socket/media layer is modelled by passing the outcome of
`getUserMedia` explicitly (`Option MediaStream`, `none` = the promise
rejected) and by logging outgoing relay messages in `sentMessages`.
External calls made by the handlers (`pc.restartIce()`, `alert`) are logged
as counters on the state so that their occurrence is observable.
-/

/-- One media track; only its `enabled` flag matters to the claims
(`track.enabled` in the source). -/
structure MediaTrack where
  enabled : Bool
deriving DecidableEq

/-- A `MediaStream` as used by the source: its audio and video track lists
(`getAudioTracks()` / `getVideoTracks()`). -/
structure MediaStream where
  audioTracks : List MediaTrack
  videoTracks : List MediaTrack
deriving DecidableEq

/-- The `RTCPeerConnection.iceConnectionState` values inspected by the
source's `oniceconnectionstatechange` handler. -/
inductive IceConnState where
  | new
  | checking
  | connected
  | failed
  | disconnected
  | closed
deriving DecidableEq

/-- One entry of the `peerConnections` table. `isInitiator` is the second
argument of `createPeerConnection`; `remoteDescSet` records whether
`setRemoteDescription` has run (done by the `offer` / `answer` handlers);
`appliedCandidates` logs the `addIceCandidate` calls; `restartIceCalls`
counts the `pc.restartIce()` calls made by the failure handler;
`connectionLostRaised` logs whether any ConnectionLost-style signal was
ever raised for this session (the source has no such signal, so no
operation sets it). -/
structure PeerConn where
  isInitiator : Bool
  remoteDescSet : Bool
  appliedCandidates : List Nat
  restartIceCalls : Nat
  connectionLostRaised : Bool
  iceConnState : IceConnState
deriving DecidableEq

/-- Outgoing relay messages emitted via `socket.emit` (candidates and
session descriptions abstracted to the addressee id). -/
inductive Msg where
  | offer (dest : Nat)
  | answer (dest : Nat)
  | iceCandidate (dest : Nat) (candidate : Nat)
  | joinVoice
  | leaveVoice
  | initiateCallMsg (dest : Nat)
  | acceptCallMsg (dest : Nat)
  | rejectCallMsg (dest : Nat)
  | videoToggle (dest : Nat) (enabled : Bool)
deriving DecidableEq

/-- The `type` argument of `initiateCall` / `acceptCall`
(`'audio'` or `'video'` in the source). -/
inductive CallKind where
  | audioCall
  | videoCall
deriving DecidableEq

/-- The process-wide mutable state of `script.js` that the claims touch:
the global flags (`inCall`, `isVideoEnabled`, `isAudioEnabled`, `isMuted`,
`preferredMicEnabled`, `isDeafened`), the streams, the `peerConnections`
object (as an association list in insertion order), the volume applied to
every `remote-*` video element, the `callInterface` `hidden` class, the
messages sent to the relay so far, and the number of `alert` calls. -/
structure AppState where
  inCall : Bool
  localStream : Option MediaStream
  screenStream : Option MediaStream
  peerConnections : List (Nat × PeerConn)
  isVideoEnabled : Bool
  isAudioEnabled : Bool
  isMuted : Bool
  preferredMicEnabled : Bool
  isDeafened : Bool
  remoteVolume : Nat
  callInterfaceHidden : Bool
  sentMessages : List Msg
  alerts : Nat
deriving DecidableEq

/-- The initial values of the globals at the top of `script.js`. -/
def initialState : AppState :=
  { inCall := false,
    localStream := none,
    screenStream := none,
    peerConnections := [],
    isVideoEnabled := true,
    isAudioEnabled := true,
    isMuted := false,
    preferredMicEnabled := true,
    isDeafened := false,
    remoteVolume := 1,
    callInterfaceHidden := true,
    sentMessages := [],
    alerts := 0 }

/-- `peerConnections[id]` lookup. -/
def lookupPC : List (Nat × PeerConn) → Nat → Option PeerConn
  | [], _ => none
  | (k, v) :: rest, id => if k = id then some v else lookupPC rest id

/-- In-place mutation of the entry for `id` (JS object property update). -/
def updatePC (s : AppState) (id : Nat) (pc : PeerConn) : AppState :=
  { s with peerConnections :=
      s.peerConnections.map (fun p => if p.1 = id then (id, pc) else p) }

/-- The audio tracks of the current local stream (empty when there is no
stream), i.e. `localStream.getAudioTracks()` guarded by `if (localStream)`. -/
def audioTracksOf (s : AppState) : List MediaTrack :=
  match s.localStream with
  | none => []
  | some stream => stream.audioTracks

/-- `setMicrophoneState(enabled, { skipPreferenceUpdate })`: updates
`preferredMicEnabled` unless skipped, sets `isAudioEnabled` / `isMuted`,
and sets every local audio track's flag to `enabled && !isDeafened`. -/
def setMicrophoneState (s : AppState) (enabled skipPreferenceUpdate : Bool) : AppState :=
  let s1 := if skipPreferenceUpdate then s else { s with preferredMicEnabled := enabled }
  let s2 := { s1 with isAudioEnabled := enabled, isMuted := !enabled }
  match s2.localStream with
  | none => s2
  | some stream =>
      let stream1 :=
        { stream with audioTracks :=
            stream.audioTracks.map (fun _ => ⟨enabled && !s2.isDeafened⟩) }
      { s2 with localStream := some stream1 }

/-- `setSpeakerState(enabled)`: `isDeafened = !enabled`, sets the volume of
every remote video element (0 when deafened, 1 otherwise), then either
forces the mic off with `skipPreferenceUpdate`, or restores
`preferredMicEnabled`. -/
def setSpeakerState (s : AppState) (enabled : Bool) : AppState :=
  let s1 := { s with isDeafened := !enabled, remoteVolume := if enabled then 1 else 0 }
  if !enabled then
    setMicrophoneState s1 false true
  else
    setMicrophoneState s1 s1.preferredMicEnabled false

/-- `initializeMedia()`: assigns the freshly acquired stream to
`localStream`, then disables every audio track when `isMuted || isDeafened`.
`none` means `getUserMedia` rejected, which the function rethrows. -/
def initializeMedia (s : AppState) (result : Option MediaStream) : Option AppState :=
  match result with
  | none => none
  | some stream =>
      let stream1 :=
        if s.isMuted || s.isDeafened then
          { stream with audioTracks := stream.audioTracks.map (fun t => { t with enabled := false }) }
        else stream
      some { s with localStream := some stream1 }

/-- A fresh `RTCPeerConnection` as built by `createPeerConnection`. -/
def newPeerConn (isInitiator : Bool) : PeerConn :=
  { isInitiator := isInitiator,
    remoteDescSet := false,
    appliedCandidates := [],
    restartIceCalls := 0,
    connectionLostRaised := false,
    iceConnState := IceConnState.new }

/-- `createPeerConnection(remoteSocketId, isInitiator)`: returns the
existing connection unchanged when one exists for the id; otherwise stores
a new one and, when initiator, creates and sends the offer (the successful
`createOffer` continuation). -/
def createPeerConnection (s : AppState) (remoteId : Nat) (isInitiator : Bool) :
    AppState × PeerConn :=
  match lookupPC s.peerConnections remoteId with
  | some pc => (s, pc)
  | none =>
      let pc := newPeerConn isInitiator
      let s1 := { s with peerConnections := s.peerConnections ++ [(remoteId, pc)] }
      let s2 :=
        if isInitiator then
          { s1 with sentMessages := s1.sentMessages ++ [Msg.offer remoteId] }
        else s1
      (s2, pc)

/-- The `user-joined-voice` handler: `createPeerConnection(data.socketId, true)`. -/
def onUserJoinedVoice (s : AppState) (socketId : Nat) : AppState :=
  (createPeerConnection s socketId true).1

/-- The `existing-voice-users` handler:
`users.forEach(user => createPeerConnection(user.socketId, false))`. -/
def onExistingVoiceUsers (s : AppState) (users : List Nat) : AppState :=
  users.foldl (fun st u => (createPeerConnection st u false).1) s

/-- The `ice-candidate` handler: `if (pc && data.candidate)
await pc.addIceCandidate(...)` — applied at once when a connection exists,
dropped otherwise; there is no buffer. -/
def onIceCandidateMsg (s : AppState) (fromId : Nat) (candidate : Option Nat) : AppState :=
  match lookupPC s.peerConnections fromId, candidate with
  | some pc, some c =>
      updatePC s fromId { pc with appliedCandidates := pc.appliedCandidates ++ [c] }
  | _, _ => s

/-- The `offer` handler: creates a responder connection when none exists,
applies the remote description and sends the answer. -/
def onOfferMsg (s : AppState) (fromId : Nat) : AppState :=
  let s1 :=
    if (lookupPC s.peerConnections fromId).isNone then
      (createPeerConnection s fromId false).1
    else s
  match lookupPC s1.peerConnections fromId with
  | some pc =>
      let s2 := updatePC s1 fromId { pc with remoteDescSet := true }
      { s2 with sentMessages := s2.sentMessages ++ [Msg.answer fromId] }
  | none => s1

/-- The `answer` handler: applies the remote description when a connection
exists for the sender, else discards the message. -/
def onAnswerMsg (s : AppState) (fromId : Nat) : AppState :=
  match lookupPC s.peerConnections fromId with
  | some pc => updatePC s fromId { pc with remoteDescSet := true }
  | none => s

/-- The `oniceconnectionstatechange` handler of `createPeerConnection`: on
entering `failed` it calls `pc.restartIce()` (counted), and does nothing
else observable in any state. -/
def onIceConnStateChange (pc : PeerConn) (st : IceConnState) : PeerConn :=
  let pc1 := { pc with iceConnState := st }
  if st = IceConnState.failed then
    { pc1 with restartIceCalls := pc1.restartIceCalls + 1 }
  else pc1

/-- `leaveVoiceChannel(force)`: a no-op when not in a call; when forced it
clears `inCall`, stops and drops both streams, notifies the relay, closes
and empties `peerConnections` and resets the device flags to their
defaults; in every non-guarded case it hides the call interface. -/
def leaveVoiceChannel (s : AppState) (force : Bool) : AppState :=
  if !s.inCall then s
  else
    let s1 :=
      if force then
        { s with inCall := false,
                 localStream := none,
                 screenStream := none,
                 sentMessages := s.sentMessages ++ [Msg.leaveVoice],
                 peerConnections := [] }
      else s
    let s2 := { s1 with callInterfaceHidden := true }
    if force then
      { s2 with isVideoEnabled := true, isAudioEnabled := true, isMuted := false,
                preferredMicEnabled := true, isDeafened := false }
    else s2

/-- `joinVoiceChannel(channelName)`: when already `inCall` it only un-hides
the call interface and returns; otherwise it sets `inCall`, shows the
interface, runs `initializeMedia` and on success announces presence to the
relay, while on media failure it alerts and force-leaves. -/
def joinVoiceChannel (s : AppState) (mediaResult : Option MediaStream) : AppState :=
  if s.inCall then
    { s with callInterfaceHidden := false }
  else
    let s1 := { s with inCall := true, callInterfaceHidden := false }
    match initializeMedia s1 mediaResult with
    | some s2 => { s2 with sentMessages := s2.sentMessages ++ [Msg.joinVoice] }
    | none => leaveVoiceChannel { s1 with alerts := s1.alerts + 1 } true

/-- A stream as returned by a granted `getUserMedia` call: every track
starts enabled. -/
def freshStream (nAudio nVideo : Nat) : MediaStream :=
  { audioTracks := List.replicate nAudio { enabled := true },
    videoTracks := List.replicate nVideo { enabled := true } }

/-- `initiateCall(friendId, type)`: acquires media first (on rejection only
the error alert happens and nothing else changes), then disables the video
tracks for an audio call, shows the interface, sends `initiate-call`, and
sets `inCall`, `isVideoEnabled`, `isAudioEnabled = true`. The fresh audio
tracks are left at their default `enabled = true` and `isMuted`,
`preferredMicEnabled`, `isDeafened` are not consulted. -/
def initiateCall (s : AppState) (friendId : Nat) (kind : CallKind)
    (mediaResult : Option MediaStream) : AppState :=
  match mediaResult with
  | none => { s with alerts := s.alerts + 1 }
  | some stream =>
      let stream1 :=
        if kind = CallKind.audioCall then
          { stream with videoTracks := stream.videoTracks.map (fun t => { t with enabled := false }) }
        else stream
      { s with localStream := some stream1,
               callInterfaceHidden := false,
               sentMessages := s.sentMessages ++ [Msg.initiateCallMsg friendId],
               inCall := true,
               isVideoEnabled := kind == CallKind.videoCall,
               isAudioEnabled := true }

/-- `acceptCall(caller, type)`: same media handling as `initiateCall`, sends
`accept-call`, then creates a responder connection for the caller when none
exists. -/
def acceptCall (s : AppState) (callerSocketId : Nat) (kind : CallKind)
    (mediaResult : Option MediaStream) : AppState :=
  match mediaResult with
  | none => { s with alerts := s.alerts + 1 }
  | some stream =>
      let stream1 :=
        if kind = CallKind.audioCall then
          { stream with videoTracks := stream.videoTracks.map (fun t => { t with enabled := false }) }
        else stream
      let s1 := { s with localStream := some stream1,
                         callInterfaceHidden := false,
                         sentMessages := s.sentMessages ++ [Msg.acceptCallMsg callerSocketId],
                         inCall := true,
                         isVideoEnabled := kind == CallKind.videoCall,
                         isAudioEnabled := true }
      if (lookupPC s1.peerConnections callerSocketId).isNone then
        (createPeerConnection s1 callerSocketId false).1
      else s1

/-- Events that touch the incoming-call prompt after `showIncomingCall`
shows it: the accept button, the reject button (both add the `hidden`
class), and a further `incoming-call` message, whose `showIncomingCall`
removes the `hidden` class again. -/
inductive RingEvent where
  | accept
  | reject
  | incoming (callerId : Nat)
deriving DecidableEq

/-- Whether a `RingEvent` is a further `incoming-call`. -/
def isIncomingEv : RingEvent → Bool
  | RingEvent.incoming _ => true
  | _ => false

/-- Effect of one event on the prompt's `hidden` class. -/
def stepRingHidden (_hidden : Bool) (e : RingEvent) : Bool :=
  match e with
  | RingEvent.accept => true
  | RingEvent.reject => true
  | RingEvent.incoming _ => false

/-- The events of a timestamped trace that land inside the 30-second window
armed by `showIncomingCall` (times in seconds since the call arrived). -/
def windowRingEvents (events : List (Nat × RingEvent)) : List (Nat × RingEvent) :=
  events.filter (fun p => p.1 < 30)

/-- The prompt's `hidden` class at the 30s mark: it starts shown
(`hidden` absent) and the in-window events act on it in order. -/
def ringHiddenAfter (events : List (Nat × RingEvent)) : Bool :=
  ((windowRingEvents events).map Prod.snd).foldl stepRingHidden false

/-- The 30s timer body: it auto-rejects exactly when the prompt is still
visible (`!incomingCallDiv.classList.contains('hidden')`). -/
def autoRejectFires (events : List (Nat × RingEvent)) : Bool :=
  !(ringHiddenAfter events)

/-! ## Helper lemmas about the peer-connection table -/

theorem lookupPC_append_some (l : List (Nat × PeerConn)) (e : Nat × PeerConn)
    (u : Nat) (pc : PeerConn) (h : lookupPC l u = some pc) :
    lookupPC (l ++ [e]) u = some pc := by
  induction l with
  | nil => simp [lookupPC] at h
  | cons hd tl ih =>
      obtain ⟨k, v⟩ := hd
      by_cases hk : k = u
      · subst hk
        simp only [lookupPC, if_pos rfl] at h
        simpa [lookupPC] using h
      · simp only [lookupPC, if_neg hk] at h
        simp only [List.cons_append, lookupPC, if_neg hk]
        exact ih h

theorem lookupPC_append_none (l : List (Nat × PeerConn)) (e : Nat × PeerConn)
    (u : Nat) (h : lookupPC l u = none) :
    lookupPC (l ++ [e]) u = if e.1 = u then some e.2 else none := by
  induction l with
  | nil => simp [lookupPC]
  | cons hd tl ih =>
      obtain ⟨k, v⟩ := hd
      by_cases hk : k = u
      · simp [lookupPC, hk] at h
      · simp only [lookupPC, if_neg hk] at h
        simp only [List.cons_append, lookupPC, if_neg hk]
        exact ih h

theorem createPeerConnection_peerConnections (s : AppState) (id : Nat) (b : Bool)
    (hl : lookupPC s.peerConnections id = none) :
    ((createPeerConnection s id b).1).peerConnections
      = s.peerConnections ++ [(id, newPeerConn b)] := by
  cases b <;> simp [createPeerConnection, hl]

theorem createPeerConnection_preserves (s : AppState) (id u : Nat) (b : Bool)
    (pc : PeerConn) (h : lookupPC s.peerConnections u = some pc) :
    lookupPC ((createPeerConnection s id b).1).peerConnections u = some pc := by
  cases hl : lookupPC s.peerConnections id with
  | some pc' => simpa [createPeerConnection, hl] using h
  | none =>
      rw [createPeerConnection_peerConnections s id b hl]
      exact lookupPC_append_some _ _ _ _ h

theorem createPeerConnection_creates (s : AppState) (id : Nat) (b : Bool)
    (h : lookupPC s.peerConnections id = none) :
    lookupPC ((createPeerConnection s id b).1).peerConnections id
      = some (newPeerConn b) := by
  rw [createPeerConnection_peerConnections s id b h,
    lookupPC_append_none _ _ _ h]
  simp

theorem createPeerConnection_fresh_other (s : AppState) (id u : Nat) (b : Bool)
    (hne : id ≠ u) (h : lookupPC s.peerConnections u = none) :
    lookupPC ((createPeerConnection s id b).1).peerConnections u = none := by
  cases hl : lookupPC s.peerConnections id with
  | some pc => simpa [createPeerConnection, hl] using h
  | none =>
      rw [createPeerConnection_peerConnections s id b hl,
        lookupPC_append_none _ _ _ h]
      simp [hne]

theorem onExistingVoiceUsers_preserves (users : List Nat) (s : AppState) (u : Nat)
    (pc : PeerConn) (h : lookupPC s.peerConnections u = some pc) :
    lookupPC (onExistingVoiceUsers s users).peerConnections u = some pc := by
  induction users generalizing s with
  | nil => simpa [onExistingVoiceUsers] using h
  | cons v vs ih =>
      have hstep : onExistingVoiceUsers s (v :: vs)
          = onExistingVoiceUsers ((createPeerConnection s v false).1) vs := rfl
      rw [hstep]
      exact ih _ (createPeerConnection_preserves s v u false pc h)

theorem onExistingVoiceUsers_responder (users : List Nat) (s : AppState)
    (h1 : users.Nodup)
    (h2 : ∀ u ∈ users, lookupPC s.peerConnections u = none) :
    ∀ u ∈ users,
      lookupPC (onExistingVoiceUsers s users).peerConnections u
        = some (newPeerConn false) := by
  induction users generalizing s with
  | nil => intro u hu; cases hu
  | cons v vs ih =>
      intro u hu
      have hstep : onExistingVoiceUsers s (v :: vs)
          = onExistingVoiceUsers ((createPeerConnection s v false).1) vs := rfl
      rw [hstep]
      rcases List.mem_cons.mp hu with rfl | hmem
      · exact onExistingVoiceUsers_preserves vs _ u _
          (createPeerConnection_creates s u false (h2 u (List.mem_cons_self _ _)))
      · have hnodup := List.nodup_cons.mp h1
        have hne : v ≠ u := fun hvu => hnodup.1 (hvu ▸ hmem)
        refine ih _ hnodup.2 (fun w hw => ?_) u hmem
        by_cases hvw : v = w
        · subst hvw; exact absurd hw hnodup.1
        · exact createPeerConnection_fresh_other s v w false hvw
            (h2 w (List.mem_cons_of_mem _ hw))

/-! ## Claim theorems -/

/-- C5: at most one Peer Session per remote id — `createPeerConnection`
called with an id that already has a session creates nothing, leaves the
whole state unchanged and returns the existing session object. -/
theorem c5_createPeerConnection_idempotent (s : AppState) (id : Nat) (b : Bool)
    (pc : PeerConn) (h : lookupPC s.peerConnections id = some pc) :
    createPeerConnection s id b = (s, pc) := by
  simp [createPeerConnection, h]

/-- Witness for C5: a state already holding a session for id 4. -/
def c5State : AppState :=
  { initialState with peerConnections := [(4, newPeerConn true)] }

/-- Witness for C5 at `c5State`. -/
theorem c5_witness :
    lookupPC c5State.peerConnections 4 = some (newPeerConn true) ∧
    createPeerConnection c5State 4 false = (c5State, newPeerConn true) :=
  ⟨by decide,
   c5_createPeerConnection_idempotent c5State 4 false (newPeerConn true) (by decide)⟩

/-- C1 counterexample: on a fresh state the `existing-voice-users` handler
opens the session toward roster member 7 in the responder role and sends no
offer, while the `user-joined-voice` handler opens the session for newcomer
3 in the initiator role — the opposite of the roles the claim states. -/
theorem c1_roles_counterexample :
    (lookupPC (onExistingVoiceUsers initialState [7]).peerConnections 7).map
        PeerConn.isInitiator = some false ∧
    (onExistingVoiceUsers initialState [7]).sentMessages = [] ∧
    (lookupPC (onUserJoinedVoice initialState 3).peerConnections 3).map
        PeerConn.isInitiator = some true ∧
    Msg.offer 3 ∈ (onUserJoinedVoice initialState 3).sentMessages := by
  decide

/-- C1 (amended): the negotiation roles are swapped relative to the claim —
upon receiving the current roster the process opens one Peer Session per
existing member with itself in the responder role (each already-present
member initiates toward the newcomer), and every `user-joined-voice` event
opens the session for the new member with this process as initiator,
sending the offer toward the new member. -/
theorem c1_roles_swapped (s : AppState) (users : List Nat) (id : Nat)
    (h1 : users.Nodup)
    (h2 : ∀ u ∈ users, lookupPC s.peerConnections u = none)
    (h3 : lookupPC s.peerConnections id = none) :
    (∀ u ∈ users,
        (lookupPC (onExistingVoiceUsers s users).peerConnections u).map
          PeerConn.isInitiator = some false) ∧
    (lookupPC (onUserJoinedVoice s id).peerConnections id).map
        PeerConn.isInitiator = some true ∧
    Msg.offer id ∈ (onUserJoinedVoice s id).sentMessages := by
  refine ⟨fun u hu => ?_, ?_, ?_⟩
  · rw [onExistingVoiceUsers_responder users s h1 h2 u hu]
    rfl
  · rw [show onUserJoinedVoice s id = (createPeerConnection s id true).1 from rfl,
      createPeerConnection_creates s id true h3]
    rfl
  · simp [onUserJoinedVoice, createPeerConnection, h3]

/-- Witness for C1 at the fresh state, roster `[7, 8]` and newcomer 3. -/
theorem c1_witness :
    [7, 8].Nodup ∧
    (∀ u ∈ [7, 8], lookupPC initialState.peerConnections u = none) ∧
    lookupPC initialState.peerConnections 3 = none ∧
    ((∀ u ∈ [7, 8],
        (lookupPC (onExistingVoiceUsers initialState [7, 8]).peerConnections u).map
          PeerConn.isInitiator = some false) ∧
     (lookupPC (onUserJoinedVoice initialState 3).peerConnections 3).map
        PeerConn.isInitiator = some true ∧
     Msg.offer 3 ∈ (onUserJoinedVoice initialState 3).sentMessages) :=
  ⟨by decide, by decide, by decide,
   c1_roles_swapped initialState [7, 8] 3 (by decide) (by decide) (by decide)⟩

/-- State for C3: a session for sender 1 whose remote description is not
yet set (as right after `createPeerConnection` and before any
offer/answer). -/
def c3State : AppState :=
  { initialState with peerConnections := [(1, newPeerConn false)] }

/-- C3 counterexample: with a session for sender 1 whose remote description
is NOT set, an arriving candidate is applied at once (`addIceCandidate`) —
nothing is buffered — refuting "a candidate is applied immediately only if
the session's remote description is already set". -/
theorem c3_applied_without_description_counterexample :
    (newPeerConn false).remoteDescSet = false ∧
    (lookupPC (onIceCandidateMsg c3State 1 (some 5)).peerConnections 1).map
        PeerConn.appliedCandidates = some [5] := by
  decide

/-- C3 (amended): an incoming ICE candidate is applied immediately whenever
a session exists for the sender, regardless of whether the session's remote
description is set; the handler has no buffer and no flush. -/
theorem c3_candidate_applied_immediately (s : AppState) (fromId c : Nat)
    (pc : PeerConn) (h : lookupPC s.peerConnections fromId = some pc) :
    onIceCandidateMsg s fromId (some c)
      = updatePC s fromId { pc with appliedCandidates := pc.appliedCandidates ++ [c] } := by
  simp [onIceCandidateMsg, h]

/-- Witness for C3 at `c3State`, sender 1, candidate 5. -/
theorem c3_witness :
    lookupPC c3State.peerConnections 1 = some (newPeerConn false) ∧
    onIceCandidateMsg c3State 1 (some 5)
      = updatePC c3State 1
          { newPeerConn false with
              appliedCandidates := (newPeerConn false).appliedCandidates ++ [5] } :=
  ⟨by decide,
   c3_candidate_applied_immediately c3State 1 5 (newPeerConn false) (by decide)⟩

/-- The connection after two consecutive ICE-failure events. -/
def c4FailedTwice : PeerConn :=
  onIceConnStateChange (onIceConnStateChange (newPeerConn true) IceConnState.failed)
    IceConnState.failed

/-- C4 counterexample: after the ICE connection fails twice, the handler
has called `restartIce()` twice — there is no single-restart limit — and no
ConnectionLost signal has been raised. -/
theorem c4_restarts_unbounded_counterexample :
    c4FailedTwice.restartIceCalls = 2 ∧
    c4FailedTwice.connectionLostRaised = false := by
  decide

/-- C4 (amended): every transition of a session's ICE connection state to
`failed` triggers one automatic ICE restart — with no limit on how many
restarts happen over the session's lifetime — and the handler never raises
a ConnectionLost signal to any coordinator. -/
theorem c4_restart_every_failure (pc : PeerConn) (st : IceConnState) :
    (onIceConnStateChange pc st).restartIceCalls
      = pc.restartIceCalls + (if st = IceConnState.failed then 1 else 0) ∧
    (onIceConnStateChange pc st).connectionLostRaised = pc.connectionLostRaised := by
  cases st <;> simp [onIceConnStateChange]

/-- The state after the user deafens (speaker toggle off) from the initial
state. -/
def c2Deafened : AppState := setSpeakerState initialState false

/-- The state after then initiating an audio call whose `getUserMedia`
succeeds with one audio and one video track. -/
def c2AfterInitiate : AppState :=
  initiateCall c2Deafened 5 CallKind.audioCall (some (freshStream 1 1))

/-- C2 (code bug): deafen, then successfully initiate an audio call. The
freshly acquired audio track is left `enabled = true` while `isDeafened` is
still true and the stored mic intent (`preferredMicEnabled`) is unchanged,
so the effective audio-track flag (true) differs from
micIntentEnabled AND NOT deafened (false): `initiateCall` (and likewise
`acceptCall`) never re-applies the mute/deafen gate that `initializeMedia`
applies to fresh streams. -/
theorem c2_deafened_initiate_transmits :
    c2AfterInitiate.isDeafened = true ∧
    c2AfterInitiate.preferredMicEnabled = true ∧
    c2AfterInitiate.isAudioEnabled = true ∧
    audioTracksOf c2AfterInitiate = [{ enabled := true }] := by
  decide

/-- Folding prompt events none of which is a further `incoming-call`: any
accept/reject leaves the prompt hidden, so the fold is `true` unless the
window was empty. -/
theorem foldl_stepRingHidden_no_incoming (l : List RingEvent) (b : Bool)
    (h : ∀ e ∈ l, isIncomingEv e = false) :
    l.foldl stepRingHidden b = if l.isEmpty then b else true := by
  induction l generalizing b with
  | nil => rfl
  | cons e es ih =>
      have he : stepRingHidden b e = true := by
        cases e with
        | accept => rfl
        | reject => rfl
        | incoming c =>
            exact absurd (h _ (List.mem_cons_self _ _)) (by simp [isIncomingEv])
      rw [List.foldl_cons, he, ih true (fun e' he' => h e' (List.mem_cons_of_mem _ he'))]
      cases es <;> simp

/-- C6 (amended): provided no further incoming-call prompt is shown during
the 30-second window, the auto-reject fires iff neither accept nor reject
occurred within the window. (Without that proviso the claim fails: the
timer only checks the prompt's visibility, so a second incoming call that
re-shows the prompt makes the auto-reject fire even after an accept or
reject.) -/
theorem c6_timeout_iff_unanswered (events : List (Nat × RingEvent))
    (h : ∀ p ∈ windowRingEvents events, isIncomingEv p.2 = false) :
    autoRejectFires events = true ↔
      ∀ p ∈ windowRingEvents events,
        p.2 ≠ RingEvent.accept ∧ p.2 ≠ RingEvent.reject := by
  cases hwin : windowRingEvents events with
  | nil =>
      constructor
      · intro _ p hp
        exact absurd hp (List.not_mem_nil p)
      · intro _
        unfold autoRejectFires ringHiddenAfter
        rw [hwin]
        rfl
  | cons p ps =>
      have hp0 : p ∈ windowRingEvents events := by
        rw [hwin]; exact List.mem_cons_self _ _
      have hp1 : p ∈ p :: ps := List.mem_cons_self _ _
      have hnotboth : ¬(p.2 ≠ RingEvent.accept ∧ p.2 ≠ RingEvent.reject) := by
        rintro ⟨ha, hr⟩
        cases hpe : p.2 with
        | accept => exact ha hpe
        | reject => exact hr hpe
        | incoming c =>
            have hi := h p hp0
            rw [hpe] at hi
            simp [isIncomingEv] at hi
      constructor
      · intro hfire
        exfalso
        unfold autoRejectFires ringHiddenAfter at hfire
        rw [hwin] at hfire
        have hni : ∀ e ∈ (p :: ps).map Prod.snd, isIncomingEv e = false := by
          intro e he
          rcases List.mem_map.mp he with ⟨q, hq, rfl⟩
          exact h q (by rw [hwin]; exact hq)
        rw [foldl_stepRingHidden_no_incoming _ _ hni] at hfire
        simp at hfire
      · intro hnone
        exact absurd (hnone p hp1) hnotboth

/-- The trace refuting C6 as stated: reject at t=10, a second incoming call
at t=20 re-shows the prompt. -/
def c6Trace : List (Nat × RingEvent) :=
  [(10, RingEvent.reject), (20, RingEvent.incoming 1)]

/-- C6 counterexample: the callee rejects at t=10 (within 30s), a second
incoming call re-shows the prompt at t=20, and the original 30s timer still
fires the auto-reject because the prompt is visible — refuting "any accept
or reject within 30 seconds prevents the auto-reject from firing". -/
theorem c6_reject_then_reshow_counterexample :
    (10, RingEvent.reject) ∈ windowRingEvents c6Trace ∧
    autoRejectFires c6Trace = true := by
  decide

/-- Witness for C6 on the single-event trace accepting at t=5. -/
theorem c6_witness :
    (∀ p ∈ windowRingEvents [(5, RingEvent.accept)], isIncomingEv p.2 = false) ∧
    (autoRejectFires [(5, RingEvent.accept)] = true ↔
      ∀ p ∈ windowRingEvents [(5, RingEvent.accept)],
        p.2 ≠ RingEvent.accept ∧ p.2 ≠ RingEvent.reject) :=
  ⟨by decide, c6_timeout_iff_unanswered [(5, RingEvent.accept)] (by decide)⟩

/-- C7: for every stored mic intent, deafening then undeafening is a round
trip — `setSpeakerState(false)` forces every local audio track off while
preserving `preferredMicEnabled` and sets remote playback volume to 0, and
the subsequent `setSpeakerState(true)` restores the effective mic (and
`isAudioEnabled`) to exactly the preserved intent and restores playback
volume to full. -/
theorem c7_deafen_roundtrip (s : AppState) :
    (setSpeakerState s false).preferredMicEnabled = s.preferredMicEnabled ∧
    (setSpeakerState s false).isDeafened = true ∧
    (setSpeakerState s false).remoteVolume = 0 ∧
    (∀ t ∈ audioTracksOf (setSpeakerState s false), t.enabled = false) ∧
    (setSpeakerState (setSpeakerState s false) true).isDeafened = false ∧
    (setSpeakerState (setSpeakerState s false) true).remoteVolume = 1 ∧
    (setSpeakerState (setSpeakerState s false) true).preferredMicEnabled
      = s.preferredMicEnabled ∧
    (setSpeakerState (setSpeakerState s false) true).isAudioEnabled
      = s.preferredMicEnabled ∧
    (∀ t ∈ audioTracksOf (setSpeakerState (setSpeakerState s false) true),
        t.enabled = s.preferredMicEnabled) := by
  obtain ⟨ic, ls, ss, pcs, ve, ae, im, pm, dfn, rv, ch, sm, al⟩ := s
  cases ls with
  | none => simp [setSpeakerState, setMicrophoneState, audioTracksOf]
  | some stream =>
      simp [setSpeakerState, setMicrophoneState, audioTracksOf, List.mem_map]

/-- C8: a non-forced leave changes only the call-interface visibility —
every Peer Session, the local stream and all flags are untouched — while a
forced leave (while in a channel) drops the local media, closes every
session leaving zero, notifies the relay with `leave-voice-channel` and
returns to the not-in-channel state. -/
theorem c8_leave_frame (s : AppState) (h : s.inCall = true) :
    leaveVoiceChannel s false = { s with callInterfaceHidden := true } ∧
    (leaveVoiceChannel s true).localStream = none ∧
    (leaveVoiceChannel s true).screenStream = none ∧
    (leaveVoiceChannel s true).peerConnections = [] ∧
    (leaveVoiceChannel s true).inCall = false ∧
    (leaveVoiceChannel s true).sentMessages = s.sentMessages ++ [Msg.leaveVoice] ∧
    (leaveVoiceChannel s true).callInterfaceHidden = true := by
  simp [leaveVoiceChannel, h]

/-- Witness state for C8: in a channel with one session and a live stream. -/
def c8State : AppState :=
  { initialState with
      inCall := true,
      localStream := some (freshStream 1 1),
      peerConnections := [(2, newPeerConn true)] }

/-- Witness for C8 at `c8State`. -/
theorem c8_witness :
    c8State.inCall = true ∧
    (leaveVoiceChannel c8State false = { c8State with callInterfaceHidden := true } ∧
     (leaveVoiceChannel c8State true).localStream = none ∧
     (leaveVoiceChannel c8State true).screenStream = none ∧
     (leaveVoiceChannel c8State true).peerConnections = [] ∧
     (leaveVoiceChannel c8State true).inCall = false ∧
     (leaveVoiceChannel c8State true).sentMessages
       = c8State.sentMessages ++ [Msg.leaveVoice] ∧
     (leaveVoiceChannel c8State true).callInterfaceHidden = true) :=
  ⟨by decide, c8_leave_frame c8State (by decide)⟩

/-- C9: when media acquisition fails, `initiateCall` only surfaces the
error alert: the call state is unchanged — still not entered, no
`initiate-call` message sent, no local stream retained, no Peer Session
created, interface visibility and device flags untouched. -/
theorem c9_initiate_media_failure (s : AppState) (friendId : Nat) (kind : CallKind) :
    (initiateCall s friendId kind none).inCall = s.inCall ∧
    (initiateCall s friendId kind none).localStream = s.localStream ∧
    (initiateCall s friendId kind none).peerConnections = s.peerConnections ∧
    (initiateCall s friendId kind none).sentMessages = s.sentMessages ∧
    (initiateCall s friendId kind none).callInterfaceHidden = s.callInterfaceHidden ∧
    (initiateCall s friendId kind none).isAudioEnabled = s.isAudioEnabled ∧
    (initiateCall s friendId kind none).isVideoEnabled = s.isVideoEnabled ∧
    (initiateCall s friendId kind none).alerts = s.alerts + 1 := by
  simp [initiateCall]

/-- C10: calling `joinVoiceChannel` while already `inCall` only un-hides
the call interface — no media acquisition, no new session, no relay
message, every existing session and the local stream unchanged — whatever
the would-be media outcome. -/
theorem c10_join_while_in_call (s : AppState) (mediaResult : Option MediaStream)
    (h : s.inCall = true) :
    joinVoiceChannel s mediaResult = { s with callInterfaceHidden := false } := by
  simp [joinVoiceChannel, h]

/-- Witness state for C10: already in a call with a session and a stream. -/
def c10State : AppState :=
  { initialState with
      inCall := true,
      localStream := some (freshStream 1 0),
      peerConnections := [(9, newPeerConn false)] }

/-- Witness for C10 at `c10State`. -/
theorem c10_witness :
    c10State.inCall = true ∧
    joinVoiceChannel c10State (some (freshStream 1 1))
      = { c10State with callInterfaceHidden := false } :=
  ⟨by decide, c10_join_while_in_call c10State (some (freshStream 1 1)) (by decide)⟩
